import Mathlib

/-!
Verification of the SemanticSearch frontend client
(src/js/semantic-search-client.js and the near-identical variant
src/unnamed/part_000).

The JavaScript module is embedded shallowly: JS values are modelled by the
inductive `JsValue` (numbers as integers — the module performs no fractional
arithmetic), property access by `getField`, and the short-circuit operators
`&&` / `||` by `jsAnd` / `jsOr` over JS truthiness.  The network and the DOM
are modelled by explicit data (a `NetOutcome` oracle, a container record, an
event trace for the input binding).  All definitions follow the source text
of the module line by line.
-/

/-- A JavaScript value, as manipulated by the client module.  Numbers are
modelled as integers: the module only ever compares and stores whole numbers
(HTTP status, lengths, limits). -/
inductive JsValue where
  | undef
  | null
  | bool (b : Bool)
  | num (n : Int)
  | str (s : String)
  | arr (elems : List JsValue)
  | obj (fields : List (String × JsValue))
deriving Repr

namespace JsValue

/-- JS truthiness: `undefined`, `null`, `false`, `0`, `""` are falsy;
every other value (including `[]` and `{}`) is truthy. -/
def truthy : JsValue → Bool
  | undef => false
  | null => false
  | bool b => b
  | num n => n != 0
  | str s => s != ""
  | arr _ => true
  | obj _ => true

/-- Property lookup `v.k`.  On an object it returns the first binding of the
key, `undefined` when absent; on every non-object it returns `undefined`
(the module only dereferences a possibly-`null` value behind a truthiness
guard, so the `null`/`undefined` cases are never reached with a throwing
semantics in the source). -/
def getField : JsValue → String → JsValue
  | obj fields, k =>
    match fields.lookup k with
    | some v => v
    | none => undef
  | _, _ => undef

/-- The short-circuit `a || b`. -/
def jsOr (a b : JsValue) : JsValue := if truthy a then a else b

/-- The short-circuit `a && b`. -/
def jsAnd (a b : JsValue) : JsValue := if truthy a then b else a

/-- String coercion as used when a value is spliced into an HTML string or a
URL. Only the cases the module can reach matter; strings pass through. -/
def jsToStr : JsValue → String
  | undef => "undefined"
  | null => "null"
  | bool b => if b then "true" else "false"
  | num n => toString n
  | str s => s
  | arr _ => ""
  | obj _ => "[object Object]"

end JsValue

open JsValue

/-- Client configuration: the two fields of the `SemanticSearch` object.
Either may hold any JS value (the config object is unvalidated). -/
structure Config where
  endpoint : JsValue
  readerKey : JsValue
deriving Repr

/-- `configure(options)` from the source:
`this.endpoint = options.endpoint || this.endpoint;`
`this.readerKey = options.readerKey || this.readerKey;`. -/
def configure (cfg : Config) (options : JsValue) : Config :=
  { endpoint := jsOr (getField options "endpoint") cfg.endpoint
    readerKey := jsOr (getField options "readerKey") cfg.readerKey }

/-- The outcome the transport presents to the `search` XHR callbacks:
either a transport-level error (`xhr.onerror`) or a completed response with
a status and the result of `JSON.parse` on the body (`none` models a body
that is not valid JSON). -/
inductive NetOutcome where
  | transportError
  | response (status : Int) (parsed : Option JsValue)
deriving Repr

/-- The four rejection kinds of `search`. -/
inductive SearchError where
  | configMissing
  | parseFailure
  | httpFailure (status : Int)
  | networkError
deriving Repr

/-- The HTTP request `search` sends: URL, headers and the JSON body (as the
field list passed to `JSON.stringify`; both fields are always defined, so
stringification drops nothing). -/
structure SearchRequest where
  url : String
  contentType : String
  authHeader : Option String
  body : List (String × JsValue)
deriving Repr

/-- The request built by `search(query, options)` after
`options = options || {}`:
POST to `endpoint + '/v1/search'`, `Content-Type: application/json`,
`Authorization: Bearer <readerKey>` iff the reader key is truthy, body
`{query: query, limit: options.limit || 10}`. -/
def searchRequest (cfg : Config) (query : String) (options : JsValue) :
    SearchRequest :=
  let opts := jsOr options (.obj [])
  { url := jsToStr cfg.endpoint ++ "/v1/search"
    contentType := "application/json"
    authHeader :=
      if truthy cfg.readerKey then
        some ("Bearer " ++ jsToStr cfg.readerKey)
      else none
    body := [("query", .str query), ("limit", jsOr (getField opts "limit") (.num 10))] }

/-- The try-block of the success path:
`resolve(response.results || response || [])`.  Reading `.results` on
`null` (or `undefined`) throws a TypeError, so those bodies produce no
resolution value (`none`) — the throw is caught by the surrounding `catch`;
every other primitive boxes, so a missing field just reads as `undefined`
and the `||` chain proceeds. -/
def resolveResponse (response : JsValue) : Option JsValue :=
  match response with
  | .null => none
  | .undef => none
  | r => some (jsOr (getField r "results") (jsOr r (.arr [])))

/-- `search(query, options)` as a function of the configuration and the
transport outcome.  Returns the request that was sent (`none` when the
endpoint guard rejects before any XHR is created) together with the
settled promise: `Except.error` models rejection, `Except.ok` resolution.
The single `catch` around the success path yields `.parseFailure` both for
a body that is not valid JSON and for the TypeError thrown when the parsed
body is `null` and `.results` is read from it. -/
def search (cfg : Config) (query : String) (options : JsValue)
    (net : NetOutcome) : Option SearchRequest × Except SearchError JsValue :=
  if truthy cfg.endpoint then
    let req := searchRequest cfg query options
    match net with
    | .transportError => (some req, .error .networkError)
    | .response status parsed =>
      if 200 ≤ status ∧ status < 300 then
        match parsed with
        | none => (some req, .error .parseFailure)
        | some response =>
          match resolveResponse response with
          | some v => (some req, .ok v)
          | none => (some req, .error .parseFailure)
      else (some req, .error (.httpFailure status))
  else
    (none, .error .configMissing)

/-- `_normalizeResult(item)` from the source, line by line:
`var doc = item && item.document ? item.document : item;`
`var metadata = (doc && doc.metadata) ? doc.metadata : (item && item.metadata ? item.metadata : {});`
then each field is `(metadata && metadata.f) || (doc && doc.f) || (item && item.f) || default`. -/
def normalizeResult (item : JsValue) : JsValue :=
  let doc := if truthy (jsAnd item (getField item "document")) then
      getField item "document" else item
  let metadata := if truthy (jsAnd doc (getField doc "metadata")) then
      getField doc "metadata"
    else if truthy (jsAnd item (getField item "metadata")) then
      getField item "metadata"
    else .obj []
  let title := jsOr (jsAnd metadata (getField metadata "title"))
      (jsOr (jsAnd doc (getField doc "title"))
        (jsOr (jsAnd item (getField item "title")) (.str "Untitled")))
  let url := jsOr (jsAnd metadata (getField metadata "url"))
      (jsOr (jsAnd doc (getField doc "url"))
        (jsOr (jsAnd item (getField item "url")) (.str "#")))
  let excerpt := jsOr (jsAnd metadata (getField metadata "excerpt"))
      (jsOr (jsAnd doc (getField doc "excerpt"))
        (jsOr (jsAnd item (getField item "excerpt")) (.str "")))
  .obj [("title", title), ("url", url), ("excerpt", excerpt)]

/-- The whitespace set JS `trim()` strips (the characters the module's
inputs can realistically carry). -/
def isJsSpace (c : Char) : Bool :=
  c == ' ' || c == '\t' || c == '\n' || c == '\r'

/-- JS `s.trim()`: strips leading and trailing whitespace. -/
def jsTrim (s : String) : String :=
  String.mk (((s.data.dropWhile isJsSpace).reverse.dropWhile isJsSpace).reverse)

/-- JS `s.substring(0, n)`: the first `n` characters of `s` (all of `s` when
it is shorter). -/
def jsSubstringTo (s : String) (n : Nat) : String := String.mk (s.data.take n)

/-- The excerpt truncation of `_renderResults`:
`excerpt.substring(0, 100) + (excerpt.length > 100 ? '...' : '')`. -/
def shortExcerpt (e : String) : String :=
  jsSubstringTo e 100 ++ (if 100 < e.data.length then "..." else "")

/-- Checks `v === false`, for the `options.showExcerpt !== false` test. -/
def isFalseLit : JsValue → Bool
  | .bool false => true
  | _ => false

/-- Presence of a JS property: anything other than `undefined`. -/
def isPresent : JsValue → Bool
  | .undef => false
  | _ => true

/-- One `<li>` of `_renderResults`: the loop body for a single result item.
`normalized.excerpt` is spliced through the string coercion; every shape the
claims exercise makes it a string, as in the source. -/
def renderItem (options : JsValue) (item : JsValue) : String :=
  let normalized := normalizeResult item
  "<li class=\"semantic-search-result-item\">"
    ++ "<a href=\"" ++ jsToStr (getField normalized "url")
    ++ "\" class=\"semantic-search-result-link\">"
    ++ jsToStr (getField normalized "title") ++ "</a>"
    ++ (if truthy (getField normalized "excerpt")
           && !(isFalseLit (getField options "showExcerpt")) then
          "<p class=\"semantic-search-result-excerpt\">"
            ++ shortExcerpt (jsToStr (getField normalized "excerpt")) ++ "</p>"
        else "")
    ++ "</li>"

/-- The `results.length === 0` test of `_renderResults` (strict equality,
so a missing `length` is not `0`). -/
def isZeroLength : JsValue → Bool
  | .arr xs => xs.length == 0
  | .str s => s.data.length == 0
  | v => match getField v "length" with
    | .num n => n == 0
    | _ => false

/-- The element list the `for` loop of `_renderResults` walks (index access
over `0 ≤ i < results.length`; an array is the only shape the module's own
success path can deliver to the loop with a positive numeric length). -/
def jsElems : JsValue → List JsValue
  | .arr xs => xs
  | _ => []

/-- The result container: its `innerHTML` and `style.display`. -/
structure ContainerState where
  innerHTML : String
  display : String
deriving Repr

/-- `_renderResults(container, results, options)`: the no-results branch or
the assembled `<ul>`, always followed by `display = 'block'`. -/
def renderResults (results : JsValue) (options : JsValue) : ContainerState :=
  if !truthy results || isZeroLength results then
    { innerHTML := "<div class=\"semantic-search-no-results\">"
        ++ jsToStr (jsOr (getField options "noResultsText") (.str "No results found"))
        ++ "</div>"
      display := "block" }
  else
    { innerHTML := "<ul class=\"semantic-search-result-list\">"
        ++ String.join ((jsElems results).map (renderItem options))
        ++ "</ul>"
      display := "block" }

/-- The mutable state a `bindSearchBox` closure sees: the input's current
value, the result container, the pending debounce timer (its absolute fire
time and the query it captured), and the log of queries handed to
`self.search`, oldest first. -/
structure BindState where
  inputValue : String
  container : ContainerState
  pending : Option (Int × String)
  searches : List String
deriving Repr

/-- The `input` event listener, fired at time `t` after the browser set the
input's value to `v`; `minLength` is `options.minLength || 2` and
`debounceMs` is `options.debounce || 300`.  It trims, always clears the
pending timer, and then either clears and hides the container (short query)
or schedules a search of the trimmed query `debounceMs` later. -/
def inputEvent (minLength debounceMs : Int) (t : Int) (v : String)
    (s : BindState) : BindState :=
  let query := jsTrim v
  let s' : BindState := { s with inputValue := v, pending := none }
  if (query.length : Int) < minLength then
    { s' with container := { innerHTML := "", display := "none" } }
  else
    { s' with pending := some (t + debounceMs, query) }

/-- Runs the debounce timer callback if one is scheduled at or before time
`t` (the event loop fires it before any later event). -/
def fireDue (t : Int) (s : BindState) : BindState :=
  match s.pending with
  | some (tf, q) =>
    if tf ≤ t then { s with pending := none, searches := s.searches ++ [q] }
    else s
  | none => s

/-- Lets all remaining time pass: the scheduled timer, if any, fires. -/
def flushPending (s : BindState) : BindState :=
  match s.pending with
  | some (_, q) => { s with pending := none, searches := s.searches ++ [q] }
  | none => s

/-- Runs a timed trace of `input` events (times non-decreasing), firing any
timer that comes due between events, then lets the final timer fire. -/
def runEvents (minLength debounceMs : Int) (s : BindState) :
    List (Int × String) → BindState
  | [] => flushPending s
  | (t, v) :: rest =>
    runEvents minLength debounceMs
      (inputEvent minLength debounceMs t v (fireDue t s)) rest

/-- `true` iff each event of the trace comes strictly less than `debounceMs`
after its predecessor. -/
def gapsWithin (debounceMs : Int) : List (Int × String) → Bool
  | a :: b :: rest => (b.1 < a.1 + debounceMs) && gapsWithin debounceMs (b :: rest)
  | _ => true

/-- The last event of the nonempty trace `e :: es`. -/
def lastEvent (e : Int × String) : List (Int × String) → Int × String
  | [] => e
  | f :: fs => lastEvent f fs

/-- A history entry, reduced to the one piece of URL state the module
touches: the `q` search parameter (`none` when the parameter is absent). -/
structure UrlState where
  q : Option String
deriving Repr

/-- `_updateUrl(query)`: sets the `q` parameter when the query is truthy,
deletes it otherwise, and installs the result with
`history.replaceState` — the current entry is replaced, none is added. -/
def updateUrl (query : String) : List UrlState → List UrlState
  | _ :: rest => (if query ≠ "" then ({ q := some query } : UrlState)
                  else { q := none }) :: rest
  | [] => []

/-- `_getQueryFromUrl()`: `url.searchParams.get('q') || ''`. -/
def getQueryFromUrl (hist : List UrlState) : String :=
  match hist.head? with
  | some u => u.q.getD ""
  | none => ""

/-- The state seen by the URL-sync variant of `bindSearchBox`: the bind
state plus the browser history, head first (the current entry). -/
structure PageState where
  inputValue : String
  container : ContainerState
  pending : Option (Int × String)
  searches : List String
  history : List UrlState
deriving Repr

/-- The `doSearch(query, updateHistory)` helper: optionally rewrites the
URL, then dispatches the search (the asynchronous render is driven by the
search outcome and does not change this state). -/
def doSearchU (query : String) (updateHistory : Bool) (s : PageState) :
    PageState :=
  let s' := if updateHistory then { s with history := updateUrl query s.history }
            else s
  { s' with searches := s'.searches ++ [query] }

/-- The `keydown` listener on Enter: trims the value and, only when it
reaches `minLength`, cancels the pending debounce and runs
`doSearch(query, true)`. -/
def enterKey (minLength : Int) (s : PageState) : PageState :=
  let query := jsTrim s.inputValue
  if minLength ≤ (query.length : Int) then
    doSearchU query true { s with pending := none }
  else s

/-- The init block of the URL-sync `bindSearchBox`: reads `q` from the URL
and, when nonempty, populates the input and — if long enough — runs
`doSearch(urlQuery, false)` (no URL write). -/
def bindInit (minLength : Int) (s : PageState) : PageState :=
  let urlQuery := getQueryFromUrl s.history
  if urlQuery ≠ "" then
    let s' : PageState := { s with inputValue := urlQuery }
    if minLength ≤ (urlQuery.length : Int) then doSearchU urlQuery false s'
    else s'
  else s

/-- The fallback chain `a || b || c || <default>` that `_normalizeResult`
evaluates per field once the truthiness guards are resolved. -/
def chain3 (a b c : JsValue) (dflt : String) : JsValue :=
  jsOr a (jsOr b (jsOr c (.str dflt)))

/-- Modelled from the spec's words (claim C2), for comparison with the
code's `_normalizeResult`: the per-field precedence chain
`document.metadata.f` (when `document` exists and has metadata), else
`item.metadata.f` if present, else `document.f`, else `item.f`, else the
default. -/
def specFieldChain (item : JsValue) (f : String) (dflt : String) : JsValue :=
  let docv := getField item "document"
  let dm := getField docv "metadata"
  if isPresent docv && isPresent dm && isPresent (getField dm f) then
    getField dm f
  else if isPresent (getField (getField item "metadata") f) then
    getField (getField item "metadata") f
  else if isPresent (getField docv f) then
    getField docv f
  else if isPresent (getField item f) then
    getField item f
  else .str dflt

/-- Modelled from the spec's words (claim C8), for comparison with the
code's `configure`: a merge that overwrites exactly the fields supplied in
`options` and leaves the rest unchanged. -/
def specConfigure (cfg : Config) (options : JsValue) : Config :=
  { endpoint := if isPresent (getField options "endpoint") then
      getField options "endpoint" else cfg.endpoint
    readerKey := if isPresent (getField options "readerKey") then
      getField options "readerKey" else cfg.readerKey }

lemma jsOr_of_truthy {a : JsValue} (b : JsValue) (h : truthy a = true) :
    jsOr a b = a := by
  simp [jsOr, h]

lemma jsOr_of_falsy {a : JsValue} (b : JsValue) (h : truthy a = false) :
    jsOr a b = b := by
  simp [jsOr, h]

lemma jsAnd_of_truthy {a : JsValue} (b : JsValue) (h : truthy a = true) :
    jsAnd a b = b := by
  simp [jsAnd, h]

lemma truthy_jsAnd (a b : JsValue) :
    truthy (jsAnd a b) = (truthy a && truthy b) := by
  cases h : truthy a <;> simp [jsAnd, h]

/-- A property lookup can only produce a truthy value on an object, and an
object is itself truthy. -/
lemma truthy_getField_imp (v : JsValue) (f : String)
    (h : truthy (getField v f) = true) : truthy v = true := by
  cases v <;> simp_all [getField, truthy]

/-- Guarded access `v && v.f` has the same truthiness as `v.f` alone. -/
lemma truthy_jsAnd_getField (v : JsValue) (f : String) :
    truthy (jsAnd v (getField v f)) = truthy (getField v f) := by
  rw [truthy_jsAnd]
  cases hg : truthy (getField v f)
  · simp
  · simp [truthy_getField_imp v f hg]

/-- In a fallback chain, the guard of `(v && v.f) || y` is redundant. -/
lemma jsOr_jsAnd_getField (v : JsValue) (f : String) (y : JsValue) :
    jsOr (jsAnd v (getField v f)) y = jsOr (getField v f) y := by
  by_cases hg : truthy (getField v f) = true
  · rw [jsAnd_of_truthy _ (truthy_getField_imp v f hg)]
  · have hg' : truthy (getField v f) = false := by simpa using hg
    have hand : truthy (jsAnd v (getField v f)) = false := by
      rw [truthy_jsAnd_getField, hg']
    rw [jsOr_of_falsy _ hand, jsOr_of_falsy _ hg']

lemma jsOr_undef (b : JsValue) : jsOr .undef b = b := rfl

lemma jsAnd_undef_falsy (a : JsValue) : truthy (jsAnd a .undef) = false := by
  rw [truthy_jsAnd]; simp [truthy]

lemma jsOr_jsAnd_undef (a y : JsValue) : jsOr (jsAnd a .undef) y = y :=
  jsOr_of_falsy _ (jsAnd_undef_falsy a)

lemma getField_emptyObj (f : String) : getField (.obj []) f = .undef := rfl

lemma jsAnd_emptyObj (b : JsValue) : jsAnd (.obj []) b = b := rfl

/-- C8 (amended): `configure(options)` overwrites a configuration field
exactly when the supplied value is truthy; a missing — or supplied but
falsy (for example the empty string) — value leaves the field unchanged.
The merge inspects only `options.endpoint` and `options.readerKey`. -/
theorem configure_merge (cfg : Config) (options : JsValue) :
    (truthy (getField options "endpoint") = true →
      (configure cfg options).endpoint = getField options "endpoint") ∧
    (truthy (getField options "endpoint") = false →
      (configure cfg options).endpoint = cfg.endpoint) ∧
    (truthy (getField options "readerKey") = true →
      (configure cfg options).readerKey = getField options "readerKey") ∧
    (truthy (getField options "readerKey") = false →
      (configure cfg options).readerKey = cfg.readerKey) := by
  refine ⟨fun h => ?_, fun h => ?_, fun h => ?_, fun h => ?_⟩ <;>
    simp [configure, jsOr, h]

/-- C8 counterexample: `configure({endpoint: ""})` supplies an endpoint,
yet the existing endpoint is kept — `||` discards a falsy supplied value —
while the claimed merge semantics (`specConfigure`) would install `""`. -/
theorem configure_merge_cex :
    isPresent (getField (.obj [("endpoint", .str "")]) "endpoint") = true ∧
    (specConfigure ⟨.str "https://old.example.com", .str "key1"⟩
        (.obj [("endpoint", .str "")])).endpoint = .str "" ∧
    (configure ⟨.str "https://old.example.com", .str "key1"⟩
        (.obj [("endpoint", .str "")])).endpoint
      = .str "https://old.example.com" ∧
    JsValue.str "https://old.example.com" ≠ .str "" := by
  exact ⟨rfl, rfl, rfl, by simp⟩

/-- Witness for `configure_merge`: a truthy supplied endpoint replaces the
old one and the unsupplied reader key is kept. -/
theorem configure_merge_witness :
    (configure ⟨.str "https://old.example.com", .str "key1"⟩
        (.obj [("endpoint", .str "https://new.example.com")])).endpoint
      = .str "https://new.example.com" ∧
    (configure ⟨.str "https://old.example.com", .str "key1"⟩
        (.obj [("endpoint", .str "https://new.example.com")])).readerKey
      = .str "key1" :=
  ⟨(configure_merge ⟨.str "https://old.example.com", .str "key1"⟩
      (.obj [("endpoint", .str "https://new.example.com")])).1 (by decide),
   (configure_merge ⟨.str "https://old.example.com", .str "key1"⟩
      (.obj [("endpoint", .str "https://new.example.com")])).2.2.2 (by decide)⟩

/-- C6: with no (falsy) endpoint configured, `search` rejects with the
configuration error and sends no request, whatever the transport would
have done; with an endpoint, a completed response with status outside
[200, 300) rejects with the HTTP error carrying that status, and a
transport-level failure rejects with the network error. -/
theorem search_error_handling (cfg : Config) (query : String)
    (options : JsValue) (net : NetOutcome) (status : Int)
    (parsed : Option JsValue) :
    (truthy cfg.endpoint = false →
      search cfg query options net = (none, .error .configMissing)) ∧
    (truthy cfg.endpoint = true → ¬(200 ≤ status ∧ status < 300) →
      search cfg query options (.response status parsed)
        = (some (searchRequest cfg query options),
           .error (.httpFailure status))) ∧
    (truthy cfg.endpoint = true →
      search cfg query options .transportError
        = (some (searchRequest cfg query options), .error .networkError)) := by
  refine ⟨fun h => ?_, fun h hs => ?_, fun h => ?_⟩
  · simp [search, h]
  · simp [search, h, hs]
  · simp [search, h]

/-- Witness for `search_error_handling`: an unconfigured client rejects
without a request even when the transport would fail; a configured client
maps a 404 response to the HTTP error and a transport failure to the
network error. -/
theorem search_error_handling_witness :
    search ⟨.undef, .undef⟩ "cats" .undef .transportError
      = (none, .error .configMissing) ∧
    search ⟨.str "https://api.example.com", .undef⟩ "cats" .undef
        (.response 404 none)
      = (some (searchRequest ⟨.str "https://api.example.com", .undef⟩
          "cats" .undef), .error (.httpFailure 404)) ∧
    search ⟨.str "https://api.example.com", .undef⟩ "cats" .undef
        .transportError
      = (some (searchRequest ⟨.str "https://api.example.com", .undef⟩
          "cats" .undef), .error .networkError) :=
  ⟨(search_error_handling ⟨.undef, .undef⟩ "cats" .undef .transportError
      404 none).1 rfl,
   (search_error_handling ⟨.str "https://api.example.com", .undef⟩ "cats"
      .undef .transportError 404 none).2.1 (by decide) (by decide),
   (search_error_handling ⟨.str "https://api.example.com", .undef⟩ "cats"
      .undef .transportError 404 none).2.2 (by decide)⟩

/-- C10: the request body `search` stringifies holds exactly the fields
`query` and `limit`: `query` is the argument verbatim, and `limit` is
`options.limit` when that value is truthy and `10` otherwise — in
particular a supplied limit of `0` becomes `10`, and omitting the options
object (`undefined`) also gives `10`. -/
theorem search_request_body (cfg : Config) (query : String)
    (options : JsValue) (n : Int) :
    ((searchRequest cfg query options).body
      = [("query", .str query),
         ("limit", jsOr (getField (jsOr options (.obj [])) "limit") (.num 10))]) ∧
    (truthy (getField (jsOr options (.obj [])) "limit") = false →
      (searchRequest cfg query options).body
        = [("query", .str query), ("limit", .num 10)]) ∧
    ((searchRequest cfg query (.obj [("limit", .num 0)])).body
      = [("query", .str query), ("limit", .num 10)]) ∧
    ((searchRequest cfg query .undef).body
      = [("query", .str query), ("limit", .num 10)]) ∧
    (n ≠ 0 →
      (searchRequest cfg query (.obj [("limit", .num n)])).body
        = [("query", .str query), ("limit", .num n)]) := by
  refine ⟨rfl, fun h => ?_, rfl, rfl, fun hn => ?_⟩
  · simp [searchRequest, jsOr_of_falsy _ h]
  · have hv : getField (jsOr (JsValue.obj [("limit", .num n)]) (.obj []))
        "limit" = .num n := rfl
    have ht : truthy (JsValue.num n) = true := by simpa [truthy] using hn
    simp [searchRequest, hv, jsOr_of_truthy _ ht]

/-- Witness for `search_request_body`: a supplied limit of 7 is sent
verbatim alongside the query. -/
theorem search_request_body_witness :
    (searchRequest ⟨.str "https://api.example.com", .undef⟩ "cats"
        (.obj [("limit", .num 7)])).body
      = [("query", .str "cats"), ("limit", .num 7)] :=
  (search_request_body ⟨.str "https://api.example.com", .undef⟩ "cats"
    (.obj [("limit", .num 7)]) 7).2.2.2.2 (by decide)

/-- C1 (amended): on a success status whose body parses as JSON: a body
of JSON `null` *rejects* with the parse error — `null.results` throws a
TypeError inside the `try`, caught by the same `catch` as malformed JSON;
every other body resolves with `response.results || response || []`: the
`results` field when it is truthy (in particular when it is an array,
empty or not), else the parsed body itself when the body is truthy (any
object or array), else the empty list (body `false`, `0` or `""`, which
box and read `.results` as `undefined` without throwing). -/
theorem search_success_resolution (cfg : Config) (query : String)
    (options : JsValue) (status : Int) (response : JsValue)
    (hend : truthy cfg.endpoint = true) (h200 : 200 ≤ status)
    (h300 : status < 300) :
    (response ≠ .null → response ≠ .undef →
      search cfg query options (.response status (some response))
        = (some (searchRequest cfg query options),
           .ok (jsOr (getField response "results")
                  (jsOr response (.arr []))))) ∧
    (truthy (getField response "results") = true →
      jsOr (getField response "results") (jsOr response (.arr []))
        = getField response "results") ∧
    (truthy (getField response "results") = false → truthy response = true →
      jsOr (getField response "results") (jsOr response (.arr []))
        = response) ∧
    (truthy (getField response "results") = false → truthy response = false →
      jsOr (getField response "results") (jsOr response (.arr []))
        = .arr []) ∧
    (search cfg query options (.response status (some .null))
      = (some (searchRequest cfg query options), .error .parseFailure)) := by
  refine ⟨fun hn hu => ?_, fun h => ?_, fun h1 h2 => ?_, fun h1 h2 => ?_, ?_⟩
  · have hr : resolveResponse response
        = some (jsOr (getField response "results")
            (jsOr response (.arr []))) := by
      cases response <;> simp_all [resolveResponse]
    simp [search, hend, h200, h300, hr]
  · simp [jsOr_of_truthy _ h]
  · simp [jsOr_of_falsy _ h1, jsOr_of_truthy _ h2]
  · simp [jsOr_of_falsy _ h1, jsOr_of_falsy _ h2]
  · simp [search, hend, h200, h300, resolveResponse]

/-- C1 counterexample: a 200 response with body `{foo: 1}` — no `results`
field and not an array, so "any other body shape" — resolves with the body
object itself, not with an empty list. -/
theorem search_success_resolution_cex :
    (search ⟨.str "https://api.example.com", .undef⟩ "cats" .undef
        (.response 200 (some (.obj [("foo", .num 1)])))).2
      = .ok (.obj [("foo", .num 1)]) ∧
    JsValue.obj [("foo", .num 1)] ≠ .arr [] := by
  exact ⟨rfl, by simp⟩

/-- Witness for `search_success_resolution`: a 200 response with body
`{results: [42]}` resolves with exactly that array, while a 200 response
whose body is JSON `null` rejects with the parse error. -/
theorem search_success_resolution_witness :
    search ⟨.str "https://api.example.com", .undef⟩ "cats" .undef
        (.response 200 (some (.obj [("results", .arr [.num 42])])))
      = (some (searchRequest ⟨.str "https://api.example.com", .undef⟩
          "cats" .undef),
         .ok (.arr [.num 42])) ∧
    search ⟨.str "https://api.example.com", .undef⟩ "cats" .undef
        (.response 200 (some .null))
      = (some (searchRequest ⟨.str "https://api.example.com", .undef⟩
          "cats" .undef),
         .error .parseFailure) :=
  ⟨(search_success_resolution ⟨.str "https://api.example.com", .undef⟩
      "cats" .undef 200 (.obj [("results", .arr [.num 42])])
      (by decide) (by decide) (by decide)).1 (by simp) (by simp),
   (search_success_resolution ⟨.str "https://api.example.com", .undef⟩
      "cats" .undef 200 (.obj [("results", .arr [.num 42])])
      (by decide) (by decide) (by decide)).2.2.2.2⟩

/-- C9: `_normalizeResult` is a total function, and on any item none of
whose relevant property lookups (`document`, `metadata`, `title`, `url`,
`excerpt`) produces a value — in particular `null`, `undefined`, and any
non-object — it returns the full default record
`{title: "Untitled", url: "#", excerpt: ""}`. -/
theorem normalize_total_defaults (item : JsValue)
    (hdoc : getField item "document" = .undef)
    (hmeta : getField item "metadata" = .undef)
    (htitle : getField item "title" = .undef)
    (hurl : getField item "url" = .undef)
    (hexc : getField item "excerpt" = .undef) :
    normalizeResult item
      = .obj [("title", .str "Untitled"), ("url", .str "#"),
              ("excerpt", .str "")] := by
  have hd : truthy (jsAnd item (getField item "document")) = false := by
    rw [truthy_jsAnd_getField, hdoc]; rfl
  have hm : truthy (jsAnd item (getField item "metadata")) = false := by
    rw [truthy_jsAnd_getField, hmeta]; rfl
  simp [normalizeResult, hd, hm, getField_emptyObj, jsAnd_emptyObj,
    jsOr_undef, htitle, hurl, hexc, jsOr_jsAnd_undef]

/-- Witness for `normalize_total_defaults`: normalizing `null` yields the
default record. -/
theorem normalize_total_defaults_witness :
    normalizeResult .null
      = .obj [("title", .str "Untitled"), ("url", .str "#"),
              ("excerpt", .str "")] :=
  normalize_total_defaults .null rfl rfl rfl rfl rfl

/-- C2 (amended): `_normalizeResult` selects one metadata source as a
whole, then runs one truthiness-based fallback chain per field.  With
`docv = item.document`, `mv = item.metadata` and `dm = docv.metadata`:
when `docv` and `dm` are truthy, every field is
`dm.f || docv.f || item.f || default` — `item.metadata` is never
consulted, even for a field absent from `dm`; when `docv` is truthy but
`dm` is not, the chain is `mv.f || docv.f || item.f || default` (or with
the `mv` step skipped when `mv` is falsy); when `docv` is falsy, the
chain is `mv.f || item.f || item.f || default` (or without the `mv` step
when `mv` is falsy).  Fields are still resolved independently, and a
falsy field value (such as `""`) is skipped. -/
theorem normalize_precedence (item docv mv dm : JsValue)
    (hdv : docv = getField item "document")
    (hmv : mv = getField item "metadata")
    (hdm : dm = getField docv "metadata") :
    (truthy docv = true → truthy dm = true →
      normalizeResult item = .obj
        [("title", chain3 (getField dm "title") (getField docv "title")
            (getField item "title") "Untitled"),
         ("url", chain3 (getField dm "url") (getField docv "url")
            (getField item "url") "#"),
         ("excerpt", chain3 (getField dm "excerpt") (getField docv "excerpt")
            (getField item "excerpt") "")]) ∧
    (truthy docv = true → truthy dm = false → truthy mv = true →
      normalizeResult item = .obj
        [("title", chain3 (getField mv "title") (getField docv "title")
            (getField item "title") "Untitled"),
         ("url", chain3 (getField mv "url") (getField docv "url")
            (getField item "url") "#"),
         ("excerpt", chain3 (getField mv "excerpt") (getField docv "excerpt")
            (getField item "excerpt") "")]) ∧
    (truthy docv = true → truthy dm = false → truthy mv = false →
      normalizeResult item = .obj
        [("title", chain3 .undef (getField docv "title")
            (getField item "title") "Untitled"),
         ("url", chain3 .undef (getField docv "url")
            (getField item "url") "#"),
         ("excerpt", chain3 .undef (getField docv "excerpt")
            (getField item "excerpt") "")]) ∧
    (truthy docv = false → truthy mv = true →
      normalizeResult item = .obj
        [("title", chain3 (getField mv "title") (getField item "title")
            (getField item "title") "Untitled"),
         ("url", chain3 (getField mv "url") (getField item "url")
            (getField item "url") "#"),
         ("excerpt", chain3 (getField mv "excerpt") (getField item "excerpt")
            (getField item "excerpt") "")]) ∧
    (truthy docv = false → truthy mv = false →
      normalizeResult item = .obj
        [("title", chain3 .undef (getField item "title")
            (getField item "title") "Untitled"),
         ("url", chain3 .undef (getField item "url")
            (getField item "url") "#"),
         ("excerpt", chain3 .undef (getField item "excerpt")
            (getField item "excerpt") "")]) := by
  subst hdv hmv hdm
  refine ⟨fun h1 h2 => ?_, fun h1 h2 h3 => ?_, fun h1 h2 h3 => ?_,
    fun h1 h2 => ?_, fun h1 h2 => ?_⟩
  · simp [normalizeResult, chain3, truthy_jsAnd_getField,
      jsOr_jsAnd_getField, h1, h2]
  · simp [normalizeResult, chain3, truthy_jsAnd_getField,
      jsOr_jsAnd_getField, h1, h2, h3]
  · simp [normalizeResult, chain3, truthy_jsAnd_getField,
      jsOr_jsAnd_getField, h1, h2, h3, getField_emptyObj, jsAnd_emptyObj,
      jsOr_undef]
  · simp [normalizeResult, chain3, truthy_jsAnd_getField,
      jsOr_jsAnd_getField, h1, h2]
  · simp [normalizeResult, chain3, truthy_jsAnd_getField,
      jsOr_jsAnd_getField, h1, h2, getField_emptyObj, jsAnd_emptyObj,
      jsOr_undef]

/-- C2 counterexample: for the item
`{document: {metadata: {}}, metadata: {title: "X"}}`, the claimed chain
(`specFieldChain`) falls back from the empty `document.metadata` to
`item.metadata.title = "X"`, but the code commits to `document.metadata`
as the only metadata source and produces the default `"Untitled"`. -/
theorem normalize_precedence_cex :
    specFieldChain (.obj [("document", .obj [("metadata", .obj [])]),
        ("metadata", .obj [("title", .str "X")])]) "title" "Untitled"
      = .str "X" ∧
    getField (normalizeResult (.obj [("document", .obj [("metadata", .obj [])]),
        ("metadata", .obj [("title", .str "X")])])) "title"
      = .str "Untitled" ∧
    JsValue.str "X" ≠ .str "Untitled" := by
  exact ⟨rfl, rfl, by simp⟩

/-- Witness for `normalize_precedence`: with both a nested
`document.metadata.title` and a flat `title`, the nested value wins, while
`url` falls through to the flat field of the same item. -/
theorem normalize_precedence_witness :
    normalizeResult (.obj [("document", .obj [("metadata",
        .obj [("title", .str "Nested")])]), ("title", .str "Flat"),
        ("url", .str "/flat-url")])
      = .obj [("title", .str "Nested"), ("url", .str "/flat-url"),
              ("excerpt", .str "")] :=
  (normalize_precedence (.obj [("document", .obj [("metadata",
      .obj [("title", .str "Nested")])]), ("title", .str "Flat"),
      ("url", .str "/flat-url")])
    (getField (.obj [("document", .obj [("metadata",
      .obj [("title", .str "Nested")])]), ("title", .str "Flat"),
      ("url", .str "/flat-url")]) "document")
    (getField (.obj [("document", .obj [("metadata",
      .obj [("title", .str "Nested")])]), ("title", .str "Flat"),
      ("url", .str "/flat-url")]) "metadata")
    (getField (getField (.obj [("document", .obj [("metadata",
      .obj [("title", .str "Nested")])]), ("title", .str "Flat"),
      ("url", .str "/flat-url")]) "document") "metadata")
    rfl rfl rfl).1 rfl rfl

/-- C5: a rendered result whose normalized excerpt is a nonempty string
`e`, with `showExcerpt` not `false`, carries the excerpt paragraph built
from `shortExcerpt e`; when `e` is longer than 100 characters that is
exactly the first 100 characters followed by `"..."` (a plain
character-count slice), and when `e` has at most 100 characters it is `e`
unmodified, with no ellipsis. -/
theorem excerpt_truncation (options item : JsValue) (e : String)
    (hex : getField (normalizeResult item) "excerpt" = .str e)
    (hne : e ≠ "")
    (hshow : isFalseLit (getField options "showExcerpt") = false) :
    renderItem options item
      = "<li class=\"semantic-search-result-item\">"
        ++ "<a href=\"" ++ jsToStr (getField (normalizeResult item) "url")
        ++ "\" class=\"semantic-search-result-link\">"
        ++ jsToStr (getField (normalizeResult item) "title") ++ "</a>"
        ++ ("<p class=\"semantic-search-result-excerpt\">"
            ++ shortExcerpt e ++ "</p>")
        ++ "</li>" ∧
    (100 < e.length → shortExcerpt e = String.mk (e.data.take 100) ++ "...") ∧
    (e.length ≤ 100 → shortExcerpt e = e) := by
  refine ⟨?_, fun h => ?_, fun h => ?_⟩
  · have ht : truthy (JsValue.str e) = true := by simp [truthy, hne]
    simp [renderItem, hex, hshow, ht, jsToStr]
  · have h' : 100 < e.data.length := h
    simp [shortExcerpt, jsSubstringTo, h', h]
  · have h' : ¬ (100 < e.data.length) := not_lt.mpr h
    have htake : e.data.take 100 = e.data :=
      List.take_of_length_le (le_of_not_lt h')
    have hmk : String.mk e.data = e := rfl
    simp [shortExcerpt, jsSubstringTo, h', htake, not_lt.mpr h, hmk]

set_option maxRecDepth 8192 in
/-- Witness for `excerpt_truncation`: a 150-character excerpt renders as
its first 100 characters plus `"..."`; a 90-character excerpt renders
unmodified. -/
theorem excerpt_truncation_witness :
    shortExcerpt "abcdefghijabcdefghijabcdefghijabcdefghijabcdefghijabcdefghijabcdefghijabcdefghijabcdefghijabcdefghijabcdefghijabcdefghijabcdefghijabcdefghijabcdefghij"
      = "abcdefghijabcdefghijabcdefghijabcdefghijabcdefghijabcdefghijabcdefghijabcdefghijabcdefghijabcdefghij"
        ++ "..." ∧
    shortExcerpt "abcdefghijabcdefghijabcdefghijabcdefghijabcdefghijabcdefghijabcdefghijabcdefghijabcdefghij"
      = "abcdefghijabcdefghijabcdefghijabcdefghijabcdefghijabcdefghijabcdefghijabcdefghijabcdefghij" :=
  ⟨(excerpt_truncation (.obj [])
      (.obj [("excerpt", .str "abcdefghijabcdefghijabcdefghijabcdefghijabcdefghijabcdefghijabcdefghijabcdefghijabcdefghijabcdefghijabcdefghijabcdefghijabcdefghijabcdefghijabcdefghij")])
      "abcdefghijabcdefghijabcdefghijabcdefghijabcdefghijabcdefghijabcdefghijabcdefghijabcdefghijabcdefghijabcdefghijabcdefghijabcdefghijabcdefghijabcdefghij"
      rfl (by decide) rfl).2.1 (by decide),
   (excerpt_truncation (.obj [])
      (.obj [("excerpt", .str "abcdefghijabcdefghijabcdefghijabcdefghijabcdefghijabcdefghijabcdefghijabcdefghijabcdefghij")])
      "abcdefghijabcdefghijabcdefghijabcdefghijabcdefghijabcdefghijabcdefghijabcdefghijabcdefghij"
      rfl (by decide) rfl).2.2 (by decide)⟩

/-- C4: an input event whose trimmed value is shorter than `minLength`
cancels any pending debounce timer, clears the result container's content
and hides it, and leaves the dispatched searches unchanged; since no
timer survives the event, no search can ever fire from it. -/
theorem short_query_no_search (minLength debounceMs t : Int) (v : String)
    (s : BindState) (h : ((jsTrim v).length : Int) < minLength) :
    inputEvent minLength debounceMs t v s
      = { inputValue := v,
          container := { innerHTML := "", display := "none" },
          pending := none, searches := s.searches } ∧
    (flushPending (inputEvent minLength debounceMs t v s)).searches
      = s.searches := by
  refine ⟨?_, ?_⟩
  · simp [inputEvent, h]
  · simp [inputEvent, h, flushPending]

/-- Witness for `short_query_no_search`: the value " a " (trimmed length
1, below the default minLength 2) wipes a pending timer and the
container, and even after all time passes no search has run. -/
theorem short_query_no_search_witness :
    inputEvent 2 300 1000 " a "
        { inputValue := "ca", container := { innerHTML := "old", display := "block" },
          pending := some (1200, "ca"), searches := ["ca"] }
      = { inputValue := " a ",
          container := { innerHTML := "", display := "none" },
          pending := none, searches := ["ca"] } ∧
    (flushPending (inputEvent 2 300 1000 " a "
        { inputValue := "ca", container := { innerHTML := "old", display := "block" },
          pending := some (1200, "ca"), searches := ["ca"] })).searches
      = ["ca"] :=
  short_query_no_search 2 300 1000 " a "
    { inputValue := "ca", container := { innerHTML := "old", display := "block" },
      pending := some (1200, "ca"), searches := ["ca"] } (by decide)

lemma fireDue_of_lt (t : Int) (s : BindState)
    (hp : ∀ tf q, s.pending = some (tf, q) → t < tf) : fireDue t s = s := by
  cases hps : s.pending with
  | none => simp [fireDue, hps]
  | some p =>
    obtain ⟨tf, q⟩ := p
    simp [fireDue, hps, not_le.mpr (hp tf q hps)]

lemma runEvents_aux (minLength debounceMs : Int) :
    ∀ (es : List (Int × String)) (e : Int × String) (s : BindState),
      (∀ tf q, s.pending = some (tf, q) → e.1 < tf) →
      gapsWithin debounceMs (e :: es) = true →
      minLength ≤ (((lastEvent e es).2 |> jsTrim).length : Int) →
      (runEvents minLength debounceMs s (e :: es)).searches
        = s.searches ++ [jsTrim (lastEvent e es).2] := by
  intro es
  induction es with
  | nil =>
    intro e s hp _ hl
    obtain ⟨t, v⟩ := e
    show (flushPending (inputEvent minLength debounceMs t v
        (fireDue t s))).searches = _
    rw [fireDue_of_lt t s hp]
    simp only [lastEvent] at hl
    have hnl : ¬ (((jsTrim v).length : Int) < minLength) := not_lt.mpr hl
    simp [inputEvent, hnl, flushPending, lastEvent]
  | cons f fs ih =>
    intro e s hp hg hl
    obtain ⟨t, v⟩ := e
    obtain ⟨t2, v2⟩ := f
    show (runEvents minLength debounceMs
        (inputEvent minLength debounceMs t v (fireDue t s))
        ((t2, v2) :: fs)).searches = _
    rw [fireDue_of_lt t s hp]
    have hg' : t2 < t + debounceMs ∧
        gapsWithin debounceMs ((t2, v2) :: fs) = true := by
      simpa [gapsWithin] using hg
    have hinv : ∀ tf q,
        (inputEvent minLength debounceMs t v s).pending = some (tf, q) →
        t2 < tf := by
      intro tf q hps
      unfold inputEvent at hps
      by_cases hc : (((jsTrim v).length : Int) < minLength)
      · simp [hc] at hps
      · simp [hc] at hps
        omega
    have hsearch : (inputEvent minLength debounceMs t v s).searches
        = s.searches := by
      unfold inputEvent
      by_cases hc : (((jsTrim v).length : Int) < minLength) <;> simp [hc]
    have hl' : minLength ≤ (((lastEvent (t2, v2) fs).2 |> jsTrim).length : Int) := by
      simpa [lastEvent] using hl
    rw [ih (t2, v2) _ hinv hg'.2 hl', hsearch]
    simp [lastEvent]

/-- C3 (amended): for any nonempty burst of input events, each arriving
strictly less than `debounceMs` after the previous one, started with no
timer pending, and whose **last event's trimmed value reaches
`minLength`**, exactly one search is dispatched — after the burst, once
the final timer fires — and its query is the trimmed input value at the
last event.  Each event first cancels the previously scheduled timer
(trailing-edge debounce, at most one timer live), so no earlier event of
the burst reaches the network.  The amendment restricts the claim to
bursts ending in a long-enough value: a burst whose last value trims
below `minLength` dispatches nothing (counterexample below). -/
theorem debounce_single_search (minLength debounceMs : Int)
    (e : Int × String) (es : List (Int × String)) (s : BindState)
    (hpend : s.pending = none)
    (hgap : gapsWithin debounceMs (e :: es) = true)
    (hlast : minLength ≤ ((jsTrim (lastEvent e es).2).length : Int)) :
    (runEvents minLength debounceMs s (e :: es)).searches
      = s.searches ++ [jsTrim (lastEvent e es).2] :=
  runEvents_aux minLength debounceMs es e s
    (fun tf q h => by rw [hpend] at h; simp at h) hgap hlast

/-- C3 counterexample: five input events 100 ms apart (debounce 300 ms)
whose last value trims to `"h"`, shorter than the default minLength 2:
the burst dispatches no search at all, not exactly one. -/
theorem debounce_single_search_cex :
    gapsWithin 300 [(0, "hello"), (100, "hell"), (200, "hel"),
        (300, "he"), (400, "h")] = true ∧
    (runEvents 2 300
        { inputValue := "", container := { innerHTML := "", display := "none" },
          pending := none, searches := [] }
        [(0, "hello"), (100, "hell"), (200, "hel"), (300, "he"),
         (400, "h")]).searches = [] := by
  exact ⟨rfl, rfl⟩

/-- Witness for `debounce_single_search`: two events 100 ms apart with a
300 ms debounce produce exactly one search, for the trimmed value of the
last event. -/
theorem debounce_single_search_witness :
    (runEvents 2 300
        { inputValue := "", container := { innerHTML := "", display := "none" },
          pending := none, searches := [] }
        [(0, "cat"), (100, " cats ")]).searches = ["cats"] :=
  debounce_single_search 2 300 (0, "cat") [(100, " cats ")]
    { inputValue := "", container := { innerHTML := "", display := "none" },
      pending := none, searches := [] } rfl (by decide) (by decide)

/-- C7 (amended): in the URL-sync variant, pressing Enter **when the
trimmed value reaches `minLength`** cancels any pending debounce, runs
the search immediately, and writes the trimmed query into the `q`
parameter by history *replacement*: the current entry is replaced and the
rest of the history is untouched, so no new entry is created.  An Enter
press whose trimmed value is shorter than `minLength` does nothing at all
(counterexample below).  On initialization, a nonempty `q` read from the
URL is written into the input and, exactly when it reaches `minLength`,
one initial search runs — with the history entirely untouched (no URL
write). -/
theorem url_sync_behavior (minLength : Int) (s : PageState) (cur : UrlState)
    (rest : List UrlState) (qs : String) :
    (s.history = cur :: rest →
     minLength ≤ ((jsTrim s.inputValue).length : Int) →
     jsTrim s.inputValue ≠ "" →
      enterKey minLength s
        = { s with
            pending := none
            searches := s.searches ++ [jsTrim s.inputValue]
            history := { q := some (jsTrim s.inputValue) } :: rest }) ∧
    (getQueryFromUrl s.history = qs → qs ≠ "" →
      bindInit minLength s
        = if minLength ≤ (qs.length : Int) then
            { s with inputValue := qs, searches := s.searches ++ [qs] }
          else { s with inputValue := qs }) := by
  constructor
  · intro hh hlen hne
    simp [enterKey, hlen, doSearchU, hh, updateUrl, hne]
  · intro hq hne
    by_cases hlen : minLength ≤ ((qs.length : Int))
    · simp [bindInit, hq, hne, hlen, doSearchU]
    · simp [bindInit, hq, hne, hlen, doSearchU]

/-- C7 counterexample: Enter pressed while the input holds " a " (trimmed
length 1, below minLength 2) leaves the state completely unchanged: the
pending debounce timer survives, no search runs, and the URL keeps its
previous `q` — contradicting the claim that every Enter press cancels the
debounce, searches, and rewrites `q`. -/
theorem url_sync_behavior_cex :
    enterKey 2
        { inputValue := " a ",
          container := { innerHTML := "", display := "block" },
          pending := some (500, "old"), searches := [],
          history := [{ q := some "old" }] }
      = { inputValue := " a ",
          container := { innerHTML := "", display := "block" },
          pending := some (500, "old"), searches := [],
          history := [{ q := some "old" }] } ∧
    some (500, "old") ≠ (none : Option (Int × String)) := by
  exact ⟨rfl, by simp⟩

/-- Witness for `url_sync_behavior`: Enter with input " cats " replaces
the current history entry with `q = "cats"` (history length unchanged),
cancels the pending timer and dispatches one search; an init whose URL has
`q = "cats"` populates the input and searches without touching history. -/
theorem url_sync_behavior_witness :
    enterKey 2
        { inputValue := " cats ",
          container := { innerHTML := "", display := "none" },
          pending := some (900, "ca"), searches := [],
          history := [{ q := some "old" }, { q := none }] }
      = { inputValue := " cats ",
          container := { innerHTML := "", display := "none" },
          pending := none, searches := ["cats"],
          history := [{ q := some "cats" }, { q := none }] } ∧
    bindInit 2
        { inputValue := "", container := { innerHTML := "", display := "none" },
          pending := none, searches := [], history := [{ q := some "cats" }] }
      = { inputValue := "cats",
          container := { innerHTML := "", display := "none" },
          pending := none, searches := ["cats"],
          history := [{ q := some "cats" }] } := by
  constructor
  · exact (url_sync_behavior 2
      { inputValue := " cats ",
        container := { innerHTML := "", display := "none" },
        pending := some (900, "ca"), searches := [],
        history := [{ q := some "old" }, { q := none }] }
      { q := some "old" } [{ q := none }] "").1 rfl (by decide) (by decide)
  · exact (url_sync_behavior 2
      { inputValue := "", container := { innerHTML := "", display := "none" },
        pending := none, searches := [], history := [{ q := some "cats" }] }
      { q := none } [] "cats").2 rfl (by decide)
